import Mathlib

/-!
Shallow embedding of `homework.py`, a workout-statistics library with three
activity types (running, sports walking, swimming), a dispatcher from
workout-type codes to activities, and a fixed-format message formatter.
Python floats are modelled as rationals, so all arithmetic is exact.
-/

namespace Training

/-- Length of one step in metres, `Training.LEN_STEP = 0.65`. -/
def LEN_STEP : ℚ := 0.65

/-- Metres in a kilometre, `Training.M_IN_KM = 1000`. -/
def M_IN_KM : ℚ := 1000

/-- Minutes in an hour, `Training.MIN_IN_HR = 60`. -/
def MIN_IN_HR : ℚ := 60

end Training

/-- Fields of `Running(Training)`: number of actions, duration in hours,
weight in kilograms. -/
structure Running where
  action : ℚ
  duration : ℚ
  weight : ℚ

namespace Running

/-- `Running.CALORIES_MEAN_SPEED_MULTIPLIER = 18`. -/
def CALORIES_MEAN_SPEED_MULTIPLIER : ℚ := 18

/-- `Running.CALORIES_MEAN_SPEED_SHIFT = 1.79`. -/
def CALORIES_MEAN_SPEED_SHIFT : ℚ := 1.79

/-- `Training.get_distance`, inherited by `Running`:
`action * LEN_STEP / M_IN_KM`. -/
def get_distance (t : Running) : ℚ :=
  t.action * Training.LEN_STEP / Training.M_IN_KM

/-- `Training.get_mean_speed`, inherited by `Running`:
`get_distance() / duration`. -/
def get_mean_speed (t : Running) : ℚ :=
  t.get_distance / t.duration

/-- `Running.get_spent_calories`. -/
def get_spent_calories (t : Running) : ℚ :=
  (CALORIES_MEAN_SPEED_MULTIPLIER * t.get_mean_speed + CALORIES_MEAN_SPEED_SHIFT)
    * t.weight / Training.M_IN_KM * t.duration * Training.MIN_IN_HR

end Running

/-- Fields of `SportsWalking(Training)`: the base fields plus height in
centimetres. -/
structure SportsWalking where
  action : ℚ
  duration : ℚ
  weight : ℚ
  height : ℚ

namespace SportsWalking

/-- `SportsWalking.CALORIES_MULTIPLIER_1 = 0.035`. -/
def CALORIES_MULTIPLIER_1 : ℚ := 0.035

/-- `SportsWalking.CALORIES_MULTIPLIER_2 = 0.029`. -/
def CALORIES_MULTIPLIER_2 : ℚ := 0.029

/-- `SportsWalking.KMH_TO_MS = 0.278`. -/
def KMH_TO_MS : ℚ := 0.278

/-- `SportsWalking.CM_IN_M = 100`. -/
def CM_IN_M : ℚ := 100

/-- `Training.get_distance`, inherited by `SportsWalking`. -/
def get_distance (t : SportsWalking) : ℚ :=
  t.action * Training.LEN_STEP / Training.M_IN_KM

/-- `Training.get_mean_speed`, inherited by `SportsWalking`. -/
def get_mean_speed (t : SportsWalking) : ℚ :=
  t.get_distance / t.duration

/-- `SportsWalking.get_spent_calories`, with `speed_ms = mean speed * 0.278`
and `height_m = height / 100`. -/
def get_spent_calories (t : SportsWalking) : ℚ :=
  (CALORIES_MULTIPLIER_1 * t.weight
      + (t.get_mean_speed * KMH_TO_MS) ^ 2 / (t.height / CM_IN_M)
        * CALORIES_MULTIPLIER_2 * t.weight)
    * t.duration * Training.MIN_IN_HR

end SportsWalking

/-- Fields of `Swimming(Training)`: the base fields plus pool length in
metres and the number of pool crossings. -/
structure Swimming where
  action : ℚ
  duration : ℚ
  weight : ℚ
  length_pool : ℚ
  count_pool : ℚ

namespace Swimming

/-- `Swimming.LEN_STEP = 1.38`, overriding the base class constant. -/
def LEN_STEP : ℚ := 1.38

/-- `Swimming.CALORIES_MEAN_SPEED_SHIFT = 1.1`. -/
def CALORIES_MEAN_SPEED_SHIFT : ℚ := 1.1

/-- `Swimming.CALORIES_MEAN_SPEED_MULTIPLIER = 2`. -/
def CALORIES_MEAN_SPEED_MULTIPLIER : ℚ := 2

/-- `Training.get_distance`, inherited by `Swimming`; `self.LEN_STEP`
resolves to the overridden `1.38`. -/
def get_distance (t : Swimming) : ℚ :=
  t.action * LEN_STEP / Training.M_IN_KM

/-- `Swimming.get_mean_speed`, overriding the base method:
`length_pool * count_pool / M_IN_KM / duration`. -/
def get_mean_speed (t : Swimming) : ℚ :=
  t.length_pool * t.count_pool / Training.M_IN_KM / t.duration

/-- `Swimming.get_spent_calories`. -/
def get_spent_calories (t : Swimming) : ℚ :=
  (t.get_mean_speed + CALORIES_MEAN_SPEED_SHIFT)
    * CALORIES_MEAN_SPEED_MULTIPLIER * t.weight * t.duration

end Swimming

/-- Decimal digit character for `d % 10`. -/
def digChar (d : ℕ) : Char :=
  match d % 10 with
  | 0 => '0' | 1 => '1' | 2 => '2' | 3 => '3' | 4 => '4'
  | 5 => '5' | 6 => '6' | 7 => '7' | 8 => '8' | _ => '9'

/-- Fixed-point rendering with exactly three digits after the decimal
point, modelling the Python format specifier `.3f`: round the value to the
nearest thousandth and print sign, integer part, a point, and the three
fractional digits. -/
def fmt3 (q : ℚ) : String :=
  (if round (q * 1000) < 0 then "-" else "")
    ++ toString ((round (q * 1000) : ℤ).natAbs / 1000)
    ++ String.mk ['.', digChar ((round (q * 1000) : ℤ).natAbs / 100),
        digChar ((round (q * 1000) : ℤ).natAbs / 10),
        digChar ((round (q * 1000) : ℤ).natAbs)]

/-- Fields of the `InfoMessage` dataclass. -/
structure InfoMessage where
  training_type : String
  duration : ℚ
  distance : ℚ
  speed : ℚ
  calories : ℚ

namespace InfoMessage

/-- `InfoMessage.get_message`: the class template `TRAINING_DATA_MSG`
instantiated with the five fields, the four numeric ones through `.3f`
formatting. -/
def get_message (m : InfoMessage) : String :=
  "Тип тренировки: " ++ m.training_type
    ++ "; Длительность: " ++ fmt3 m.duration
    ++ " ч.; Дистанция: " ++ fmt3 m.distance
    ++ " км; Ср. скорость: " ++ fmt3 m.speed
    ++ " км/ч; Потрачено ккал: " ++ fmt3 m.calories ++ "."

end InfoMessage

/-- A workout returned by the dispatcher: one of the three `Training`
subclasses. -/
inductive AnyTraining where
  | run : Running → AnyTraining
  | wlk : SportsWalking → AnyTraining
  | swm : Swimming → AnyTraining

/-- Message of the `KeyError` raised for an unrecognized workout type. -/
def unknown_workout_msg : String := "Такая тренировка не определена."

/-- Message standing for the `TypeError` Python raises when the parameter
list does not match the constructor arity. -/
def arity_error_msg : String := "TypeError: wrong arity"

/-- `read_package`: look the workout type up among `RUN`, `WLK`, `SWM`,
raise `KeyError` when absent, otherwise unpack the data list into the
constructor of the selected class. -/
def read_package (workout_type : String) (data : List ℚ) :
    Except String AnyTraining :=
  if workout_type = "RUN" then
    match data with
    | [a, d, w] => Except.ok (AnyTraining.run ⟨a, d, w⟩)
    | _ => Except.error arity_error_msg
  else if workout_type = "WLK" then
    match data with
    | [a, d, w, h] => Except.ok (AnyTraining.wlk ⟨a, d, w, h⟩)
    | _ => Except.error arity_error_msg
  else if workout_type = "SWM" then
    match data with
    | [a, d, w, l, c] => Except.ok (AnyTraining.swm ⟨a, d, w, l, c⟩)
    | _ => Except.error arity_error_msg
  else Except.error unknown_workout_msg

/-- Every character produced by `digChar` is a decimal digit. -/
theorem digChar_isDigit (d : ℕ) : (digChar d).isDigit = true := by
  unfold digChar
  have h : d % 10 < 10 := Nat.mod_lt _ (by norm_num)
  generalize hk : d % 10 = k
  rw [hk] at h
  interval_cases k <;> rfl

/-- C1: for every `Running` workout with positive duration,
`get_spent_calories` equals
`(18 * mean_speed + 1.79) * weight / 1000 * duration * 60`, where the mean
speed is the base `get_distance / duration`; at `RUN [15000, 1, 75]` the
distance is 9.75 km, the mean speed 9.75 km/h, and the calories equal
`(18 * 9.75 + 1.79) * 75 / 1000 * 1 * 60`. -/
theorem running_calories_spec :
    (∀ t : Running, 0 < t.duration →
      t.get_spent_calories
        = (18 * t.get_mean_speed + 1.79) * t.weight / 1000 * t.duration * 60)
    ∧ (Running.mk 15000 1 75).get_distance = 9.75
    ∧ (Running.mk 15000 1 75).get_mean_speed = 9.75
    ∧ (Running.mk 15000 1 75).get_spent_calories
        = (18 * 9.75 + 1.79) * 75 / 1000 * 1 * 60 := by
  refine ⟨fun t ht => ?_, ?_, ?_, ?_⟩ <;>
    norm_num [Running.get_spent_calories, Running.get_mean_speed,
      Running.get_distance, Running.CALORIES_MEAN_SPEED_MULTIPLIER,
      Running.CALORIES_MEAN_SPEED_SHIFT, Training.M_IN_KM, Training.MIN_IN_HR,
      Training.LEN_STEP]

/-- Witness for C1 at `RUN [15000, 1, 75]`. -/
theorem running_calories_spec_witness :
    (Running.mk 15000 1 75).get_spent_calories
      = (18 * (Running.mk 15000 1 75).get_mean_speed + 1.79)
        * 75 / 1000 * 1 * 60 :=
  running_calories_spec.1 ⟨15000, 1, 75⟩ (by norm_num)

/-- C2: for every `SportsWalking` workout with positive duration and height,
`get_spent_calories` equals
`(0.035 * weight + (mean_speed * 0.278) ^ 2 / (height / 100) * 0.029 * weight)
  * duration * 60`. -/
theorem walking_calories_spec (t : SportsWalking)
    (hd : 0 < t.duration) (hh : 0 < t.height) :
    t.get_spent_calories
      = (0.035 * t.weight
          + (t.get_mean_speed * 0.278) ^ 2 / (t.height / 100)
            * 0.029 * t.weight)
        * t.duration * 60 := by
  norm_num [SportsWalking.get_spent_calories, SportsWalking.CALORIES_MULTIPLIER_1,
    SportsWalking.CALORIES_MULTIPLIER_2, SportsWalking.KMH_TO_MS,
    SportsWalking.CM_IN_M, Training.MIN_IN_HR]

/-- Witness for C2 at `WLK [9000, 1, 75, 180]`. -/
theorem walking_calories_spec_witness :
    (SportsWalking.mk 9000 1 75 180).get_spent_calories
      = (0.035 * 75
          + ((SportsWalking.mk 9000 1 75 180).get_mean_speed * 0.278) ^ 2
            / (180 / 100) * 0.029 * 75) * 1 * 60 :=
  walking_calories_spec ⟨9000, 1, 75, 180⟩ (by norm_num) (by norm_num)

/-- C3: for every `Swimming` workout with positive duration,
`get_spent_calories` equals `(mean_speed + 1.1) * 2 * weight * duration`
with the overridden mean speed `length_pool * count_pool / 1000 / duration`;
at `SWM [720, 1, 80, 25, 40]` the distance is 0.9936 km, the mean speed
1 km/h, and the calories 336. -/
theorem swimming_calories_spec :
    (∀ t : Swimming, 0 < t.duration →
      t.get_spent_calories = (t.get_mean_speed + 1.1) * 2 * t.weight * t.duration)
    ∧ (Swimming.mk 720 1 80 25 40).get_distance = 0.9936
    ∧ (Swimming.mk 720 1 80 25 40).get_mean_speed = 1
    ∧ (Swimming.mk 720 1 80 25 40).get_spent_calories = 336 := by
  refine ⟨fun t ht => ?_, ?_, ?_, ?_⟩ <;>
    norm_num [Swimming.get_spent_calories, Swimming.get_mean_speed,
      Swimming.get_distance, Swimming.LEN_STEP,
      Swimming.CALORIES_MEAN_SPEED_SHIFT, Swimming.CALORIES_MEAN_SPEED_MULTIPLIER,
      Training.M_IN_KM]

/-- Witness for C3 at `SWM [720, 1, 80, 25, 40]`. -/
theorem swimming_calories_spec_witness :
    (Swimming.mk 720 1 80 25 40).get_spent_calories
      = ((Swimming.mk 720 1 80 25 40).get_mean_speed + 1.1) * 2 * 80 * 1 :=
  swimming_calories_spec.1 ⟨720, 1, 80, 25, 40⟩ (by norm_num)

/-- C4: every workout's `get_distance` is `action * step_length / 1000`
kilometres, with step length 0.65 for `Running` and `SportsWalking` and
1.38 for `Swimming`. -/
theorem get_distance_spec :
    (∀ t : Running, t.get_distance = t.action * 0.65 / 1000)
    ∧ (∀ t : SportsWalking, t.get_distance = t.action * 0.65 / 1000)
    ∧ (∀ t : Swimming, t.get_distance = t.action * 1.38 / 1000) := by
  refine ⟨fun t => ?_, fun t => ?_, fun t => ?_⟩ <;>
    norm_num [Running.get_distance, SportsWalking.get_distance,
      Swimming.get_distance, Training.LEN_STEP, Swimming.LEN_STEP,
      Training.M_IN_KM]

/-- C5: for positive duration, `get_mean_speed` is `get_distance / duration`
for `Running` and `SportsWalking`, while `Swimming` overrides it with
`length_pool * count_pool / 1000 / duration`. -/
theorem get_mean_speed_spec :
    (∀ t : Running, 0 < t.duration →
      t.get_mean_speed = t.get_distance / t.duration)
    ∧ (∀ t : SportsWalking, 0 < t.duration →
      t.get_mean_speed = t.get_distance / t.duration)
    ∧ (∀ t : Swimming, 0 < t.duration →
      t.get_mean_speed = t.length_pool * t.count_pool / 1000 / t.duration) := by
  refine ⟨fun t ht => rfl, fun t ht => rfl, fun t ht => ?_⟩
  norm_num [Swimming.get_mean_speed, Training.M_IN_KM]

/-- Witness for C5 at `SWM [720, 1, 80, 25, 40]`. -/
theorem get_mean_speed_spec_witness :
    (Swimming.mk 720 1 80 25 40).get_mean_speed = 25 * 40 / 1000 / 1 :=
  get_mean_speed_spec.2.2 ⟨720, 1, 80, 25, 40⟩ (by norm_num)

/-- C6: `read_package` returns the unknown-workout-type error exactly for
codes other than `RUN`, `WLK` and `SWM`; for each of those codes with a
parameter list of the matching constructor arity it succeeds with the
corresponding variant built from the parameters in order. -/
theorem read_package_spec :
    (∀ (workout_type : String) (data : List ℚ),
      read_package workout_type data = Except.error unknown_workout_msg
        ↔ ¬(workout_type = "RUN" ∨ workout_type = "WLK" ∨ workout_type = "SWM"))
    ∧ (∀ a d w, read_package "RUN" [a, d, w]
        = Except.ok (AnyTraining.run ⟨a, d, w⟩))
    ∧ (∀ a d w h, read_package "WLK" [a, d, w, h]
        = Except.ok (AnyTraining.wlk ⟨a, d, w, h⟩))
    ∧ (∀ a d w l c, read_package "SWM" [a, d, w, l, c]
        = Except.ok (AnyTraining.swm ⟨a, d, w, l, c⟩)) := by
  refine ⟨?_, fun a d w => rfl, fun a d w h => rfl, fun a d w l c => rfl⟩
  intro workout_type data
  unfold read_package
  split_ifs with h1 h2 h3
  · rcases data with _ | ⟨a, _ | ⟨b, _ | ⟨c, _ | ⟨e, rest⟩⟩⟩⟩ <;>
      simp [h1, unknown_workout_msg, arity_error_msg]
  · rcases data with _ | ⟨a, _ | ⟨b, _ | ⟨c, _ | ⟨e, _ | ⟨f, rest⟩⟩⟩⟩⟩ <;>
      simp [h2, unknown_workout_msg, arity_error_msg]
  · rcases data with _ | ⟨a, _ | ⟨b, _ | ⟨c, _ | ⟨e, _ | ⟨f, _ | ⟨g, rest⟩⟩⟩⟩⟩⟩ <;>
      simp [h3, unknown_workout_msg, arity_error_msg]
  · simp [h1, h2, h3, unknown_workout_msg]

/-- C7: `InfoMessage.get_message` is exactly the fixed Russian template with
the five fields substituted, and every number rendered by the `.3f`
formatter ends in a decimal point followed by exactly three digit
characters. -/
theorem get_message_spec :
    (∀ m : InfoMessage, m.get_message
      = "Тип тренировки: " ++ m.training_type
        ++ "; Длительность: " ++ fmt3 m.duration
        ++ " ч.; Дистанция: " ++ fmt3 m.distance
        ++ " км; Ср. скорость: " ++ fmt3 m.speed
        ++ " км/ч; Потрачено ккал: " ++ fmt3 m.calories ++ ".")
    ∧ (∀ q : ℚ, ∃ p a b c, fmt3 q = p ++ String.mk ['.', a, b, c]
        ∧ a.isDigit = true ∧ b.isDigit = true ∧ c.isDigit = true) := by
  refine ⟨fun m => rfl, fun q => ?_⟩
  unfold fmt3
  exact ⟨_, _, _, _, rfl, digChar_isDigit _, digChar_isDigit _, digChar_isDigit _⟩

/-- C8: with non-negative action count, positive duration, and non-negative
pool data for swimming, every workout has non-negative `get_distance` and
`get_mean_speed`. -/
theorem distance_speed_nonneg_spec :
    (∀ t : Running, 0 ≤ t.action → 0 < t.duration →
      0 ≤ t.get_distance ∧ 0 ≤ t.get_mean_speed)
    ∧ (∀ t : SportsWalking, 0 ≤ t.action → 0 < t.duration →
      0 ≤ t.get_distance ∧ 0 ≤ t.get_mean_speed)
    ∧ (∀ t : Swimming, 0 ≤ t.action → 0 < t.duration →
      0 ≤ t.length_pool → 0 ≤ t.count_pool →
      0 ≤ t.get_distance ∧ 0 ≤ t.get_mean_speed) := by
  have hstep : (0:ℚ) ≤ Training.LEN_STEP := by norm_num [Training.LEN_STEP]
  have hswim : (0:ℚ) ≤ Swimming.LEN_STEP := by norm_num [Swimming.LEN_STEP]
  have hkm : (0:ℚ) ≤ Training.M_IN_KM := by norm_num [Training.M_IN_KM]
  refine ⟨fun t ha hd => ?_, fun t ha hd => ?_, fun t ha hd hl hc => ?_⟩
  · have h1 : 0 ≤ t.get_distance := div_nonneg (mul_nonneg ha hstep) hkm
    exact ⟨h1, div_nonneg h1 hd.le⟩
  · have h1 : 0 ≤ t.get_distance := div_nonneg (mul_nonneg ha hstep) hkm
    exact ⟨h1, div_nonneg h1 hd.le⟩
  · have h1 : 0 ≤ t.get_distance := div_nonneg (mul_nonneg ha hswim) hkm
    have h2 : 0 ≤ t.get_mean_speed :=
      div_nonneg (div_nonneg (mul_nonneg hl hc) hkm) hd.le
    exact ⟨h1, h2⟩

/-- Witness for C8 at `RUN [15000, 1, 75]`. -/
theorem distance_speed_nonneg_spec_witness :
    0 ≤ (Running.mk 15000 1 75).get_distance
      ∧ 0 ≤ (Running.mk 15000 1 75).get_mean_speed :=
  distance_speed_nonneg_spec.1 ⟨15000, 1, 75⟩ (by norm_num) (by norm_num)

/-- C9: `get_mean_speed` and `get_spent_calories` are deterministic pure
functions of the constructor inputs: two workouts of the same variant with
equal fields produce equal results. -/
theorem determinism_spec :
    (∀ t₁ t₂ : Running, t₁.action = t₂.action → t₁.duration = t₂.duration →
      t₁.weight = t₂.weight →
      t₁.get_mean_speed = t₂.get_mean_speed
        ∧ t₁.get_spent_calories = t₂.get_spent_calories)
    ∧ (∀ t₁ t₂ : SportsWalking, t₁.action = t₂.action →
      t₁.duration = t₂.duration → t₁.weight = t₂.weight →
      t₁.height = t₂.height →
      t₁.get_mean_speed = t₂.get_mean_speed
        ∧ t₁.get_spent_calories = t₂.get_spent_calories)
    ∧ (∀ t₁ t₂ : Swimming, t₁.action = t₂.action →
      t₁.duration = t₂.duration → t₁.weight = t₂.weight →
      t₁.length_pool = t₂.length_pool → t₁.count_pool = t₂.count_pool →
      t₁.get_mean_speed = t₂.get_mean_speed
        ∧ t₁.get_spent_calories = t₂.get_spent_calories) := by
  refine ⟨fun t₁ t₂ e1 e2 e3 => ?_, fun t₁ t₂ e1 e2 e3 e4 => ?_,
    fun t₁ t₂ e1 e2 e3 e4 e5 => ?_⟩
  · obtain ⟨a, d, w⟩ := t₁
    obtain ⟨a', d', w'⟩ := t₂
    have h1 : a = a' := e1
    have h2 : d = d' := e2
    have h3 : w = w' := e3
    subst h1; subst h2; subst h3
    exact ⟨rfl, rfl⟩
  · obtain ⟨a, d, w, x⟩ := t₁
    obtain ⟨a', d', w', x'⟩ := t₂
    have h1 : a = a' := e1
    have h2 : d = d' := e2
    have h3 : w = w' := e3
    have h4 : x = x' := e4
    subst h1; subst h2; subst h3; subst h4
    exact ⟨rfl, rfl⟩
  · obtain ⟨a, d, w, l, c⟩ := t₁
    obtain ⟨a', d', w', l', c'⟩ := t₂
    have h1 : a = a' := e1
    have h2 : d = d' := e2
    have h3 : w = w' := e3
    have h4 : l = l' := e4
    have h5 : c = c' := e5
    subst h1; subst h2; subst h3; subst h4; subst h5
    exact ⟨rfl, rfl⟩

/-- Witness for C9 on two equal `Running` records. -/
theorem determinism_spec_witness :
    (Running.mk 15000 1 75).get_mean_speed
      = (Running.mk 15000 1 75).get_mean_speed
    ∧ (Running.mk 15000 1 75).get_spent_calories
      = (Running.mk 15000 1 75).get_spent_calories :=
  determinism_spec.1 ⟨15000, 1, 75⟩ ⟨15000, 1, 75⟩ rfl rfl rfl

/-- C10: `Swimming.get_mean_speed` and `Swimming.get_spent_calories` never
read the `action` field, and at `SWM [720, 1, 80, 25, 40]` the product
`get_mean_speed * duration` differs from `get_distance`. -/
theorem swimming_action_independent_spec :
    (∀ (t : Swimming) (a : ℚ),
      (Swimming.mk a t.duration t.weight t.length_pool t.count_pool).get_mean_speed
        = t.get_mean_speed
      ∧ (Swimming.mk a t.duration t.weight t.length_pool
            t.count_pool).get_spent_calories
        = t.get_spent_calories)
    ∧ (Swimming.mk 720 1 80 25 40).get_mean_speed
        * (Swimming.mk 720 1 80 25 40).duration
      ≠ (Swimming.mk 720 1 80 25 40).get_distance := by
  refine ⟨fun t a => ⟨rfl, rfl⟩, ?_⟩
  norm_num [Swimming.get_mean_speed, Swimming.get_distance, Swimming.LEN_STEP,
    Training.M_IN_KM]
